import Mathlib

-- Verification of the semantic textconv engine embedded in
-- ableton_git_setup.py (the als-textconv-semantic.py script it writes).
-- The XML tree produced by xml.etree.ElementTree is modelled as a labelled
-- tree with a tag, an attribute list and an ordered child list; attribute
-- values are strings, numeric coercion goes through models of the Python
-- int() and float() primitives; Python floats are modelled as rationals
-- (reals for the one logarithm in format_db).

namespace Als

/-- Generic labelled tree node: models xml.etree.ElementTree.Element
(a tag, an attribute map, an ordered list of children). -/
inductive Elem where
  | node (tag : String) (attrs : List (String × String)) (children : List Elem)
deriving Repr

def Elem.tag : Elem → String
  | .node t _ _ => t

def Elem.attrs : Elem → List (String × String)
  | .node _ a _ => a

def Elem.children : Elem → List Elem
  | .node _ _ c => c

/-- Models Element.get(key, default): attribute lookup with a default.
The Python None default is conflated with the empty string; every call
site in the source only tests the result for truthiness or equality,
for which the two agree. -/
def Elem.getA (e : Elem) (key dflt : String) : String :=
  match e.attrs.lookup key with
  | some v => v
  | none => dflt

mutual

/-- All proper descendants of a node in document (preorder) order; this is
what an ElementTree double-slash path step iterates over. -/
def Elem.descendants : Elem → List Elem
  | .node _ _ cs => descendantsList cs

def descendantsList : List Elem → List Elem
  | [] => []
  | c :: cs => c :: Elem.descendants c ++ descendantsList cs

end

/-- One step of an ElementTree path: child selects direct children with the
tag, desc (a double slash step) selects descendants at any depth with the
tag. -/
inductive Seg where
  | child (tag : String)
  | desc (tag : String)

def segMatches (e : Elem) : Seg → List Elem
  | .child t => e.children.filter (fun c => c.tag == t)
  | .desc t => (Elem.descendants e).filter (fun c => c.tag == t)

/-- Models Element.findall(path) for the path shapes used by the source
(slash separated tags, optionally with leading or interior double
slashes), in document order. -/
def findall (e : Elem) : List Seg → List Elem
  | [] => [e]
  | s :: rest => (segMatches e s).flatMap (fun c => findall c rest)

/-- Models Element.find(path): the first match of findall. -/
def find1 (e : Elem) (p : List Seg) : Option Elem :=
  (findall e p).head?

/-- Source get_attr (line 85): read the Value attribute of the node at
path, with a default for an absent node or attribute; never fails. -/
def get_attr (elem : Option Elem) (path : List Seg) (dflt : String) : String :=
  match elem with
  | none => dflt
  | some e =>
    match find1 e path with
    | some n => n.getA "Value" dflt
    | none => dflt

-- Python string methods are modelled by structural functions over the
-- character list of a string, so that every definition evaluates by
-- kernel reduction.

def chStartsWith : List Char → List Char → Bool
  | _, [] => true
  | [], _ :: _ => false
  | c :: cs, p :: ps => c == p && chStartsWith cs ps

/-- Python str.startswith. -/
def strStartsWith (s p : String) : Bool := chStartsWith s.data p.data

/-- Python str.endswith. -/
def strEndsWith (s p : String) : Bool := chStartsWith s.data.reverse p.data.reverse

/-- Python slicing s[n:] (by characters). -/
def strDropN (s : String) (n : ℕ) : String := String.mk (s.data.drop n)

/-- Split on the first fuel occurrences of a nonempty separator, left to
right and non-overlapping; the fuel argument only drives structural
termination and is chosen large enough to never run out. -/
def chSplitGo : ℕ → List Char → List Char → List Char → List (List Char)
  | 0, l, acc, _ => [acc.reverse ++ l]
  | _ + 1, [], acc, _ => [acc.reverse]
  | fuel + 1, c :: rest, acc, sep =>
    if chStartsWith (c :: rest) sep then
      acc.reverse :: chSplitGo fuel (List.drop sep.length (c :: rest)) [] sep
    else chSplitGo fuel rest (c :: acc) sep

/-- Python str.split with a nonempty separator. -/
def strSplitOn (s sep : String) : List String :=
  (chSplitGo (s.data.length + 1) s.data [] sep.data).map String.mk

/-- Python str.replace (all non-overlapping occurrences, nonempty
pattern). -/
def strReplace (s pat rep : String) : String :=
  String.intercalate rep (strSplitOn s pat)

/-- Python str.lower for the ASCII names appearing here. -/
def strToLower (s : String) : String := String.mk (s.data.map Char.toLower)

def isSpaceCh (c : Char) : Bool := [' ', '\t', '\n', '\r'].contains c

/-- Python str.strip. -/
def strTrim (s : String) : String :=
  String.mk (((s.data.dropWhile isSpaceCh).reverse.dropWhile isSpaceCh).reverse)

/-- Stable insertion into a list sorted by le, placing the new element
after existing elements it ties with. -/
def insertLe {α : Type} (le : α → α → Bool) (x : α) : List α → List α
  | [] => [x]
  | y :: ys => if le y x then y :: insertLe le x ys else x :: y :: ys

/-- Stable sort, modelling the stable Python list.sort: processing the
original list left to right and inserting behind ties yields the unique
stable ordering. -/
def stableSortLe {α : Type} (le : α → α → Bool) (l : List α) : List α :=
  l.foldl (fun acc x => insertLe le x acc) []

/-- Effectful map over Except, stopping at the first error, modelling a
Python loop whose body can raise. -/
def mapMEx {α β : Type} (f : α → Except String β) : List α → Except String (List β)
  | [] => Except.ok []
  | x :: xs => do
    let y ← f x
    let ys ← mapMEx f xs
    pure (y :: ys)

def isDigitCh (c : Char) : Bool := c.isDigit

def digitsVal (l : List Char) : ℕ :=
  l.foldl (fun a c => a * 10 + (c.toNat - 48)) 0

/-- Models the Python int() primitive on the attribute literals appearing
in project files: an optional sign followed by decimal digits. Other
accepted Python forms (whitespace, underscores, other bases) do not occur
in the modelled attribute values. none models a raised ValueError. -/
def pyInt (s : String) : Option ℤ :=
  let neg := strStartsWith s "-"
  let body := if neg then strDropN s 1 else if strStartsWith s "+" then strDropN s 1 else s
  if body ≠ "" ∧ body.data.all isDigitCh then
    some (if neg then -(digitsVal body.data : ℤ) else (digitsVal body.data : ℤ))
  else none

/-- Models the Python float() primitive on the attribute literals appearing
in project files: an optional sign, digits, an optional decimal point.
Exponent and infinity forms do not occur in the modelled attribute
values. none models a raised ValueError. -/
def pyFloat (s : String) : Option ℚ :=
  let neg := strStartsWith s "-"
  let body := if neg then strDropN s 1 else if strStartsWith s "+" then strDropN s 1 else s
  match strSplitOn body "." with
  | [ip] =>
    if ip ≠ "" ∧ ip.data.all isDigitCh then
      some (if neg then -(digitsVal ip.data : ℚ) else (digitsVal ip.data : ℚ))
    else none
  | [ip, fp] =>
    if (ip ≠ "" ∨ fp ≠ "") ∧ ip.data.all isDigitCh ∧ fp.data.all isDigitCh then
      let mag : ℚ := (digitsVal ip.data : ℚ) + (digitsVal fp.data : ℚ) / 10 ^ fp.length
      some (if neg then -mag else mag)
    else none
  | _ => none

/-- Python int() applied to a float value: truncation toward zero. -/
def pyTrunc {α : Type} [LinearOrderedField α] [FloorRing α] (x : α) : ℤ :=
  if x < 0 then -⌊-x⌋ else ⌊x⌋

/-- Rounding to the nearest integer with ties to even, the rule used by
Python fixed-point string formatting. -/
def rndHE {α : Type} [LinearOrderedField α] [FloorRing α] (x : α) : ℤ :=
  let f := ⌊x⌋
  if x - f < 1/2 then f
  else if 1/2 < x - f then f + 1
  else if f % 2 = 0 then f else f + 1

def strRepeat (c : Char) (n : ℕ) : String := String.mk (List.replicate n c)

def natPad (n : ℕ) (width : ℕ) : String :=
  let s := toString n
  strRepeat '0' (width - s.length) ++ s

/-- Models a Python format of the shape .Nf (fixed point with N decimals).
The sign of a negative zero result is not modelled; no call site studied
here reaches it. -/
def fmtFixed {α : Type} [LinearOrderedField α] [FloorRing α] (x : α) (prec : ℕ) : String :=
  let n := rndHE (x * 10 ^ prec)
  let sgn := if n < 0 then "-" else ""
  let m := n.natAbs
  if prec = 0 then sgn ++ toString m
  else sgn ++ toString (m / 10 ^ prec) ++ "." ++ natPad (m % 10 ^ prec) prec

/-- Models a Python format of the shape +.Nf (fixed point, explicit sign). -/
def fmtPlusFixed {α : Type} [LinearOrderedField α] [FloorRing α] (x : α) (prec : ℕ) : String :=
  if rndHE (x * 10 ^ prec) < 0 then fmtFixed x prec else "+" ++ fmtFixed x prec

/-- Models a Python format of the shape +d (integer with explicit sign). -/
def fmtPlusInt (n : ℤ) : String :=
  if n < 0 then toString n else "+" ++ toString n

/-- Python substring containment (the in operator on strings), for
nonempty patterns. -/
def containsStr (s pat : String) : Bool :=
  (strSplitOn s pat).length > 1

/-- Insert into an association list with Python dict semantics: an existing
key keeps its position and gets the new value, a new key is appended. -/
def dictInsert {κ : Type} [BEq κ] (m : List (κ × String)) (k : κ) (v : String) : List (κ × String) :=
  if (m.lookup k).isSome then m.map (fun p => if p.1 == k then (k, v) else p)
  else m ++ [(k, v)]

-- Fixed lookup tables of the source (lines 45 to 83).

def COLORS : List (String × String) :=
  [("0", "Gray"), ("1", "Rose"), ("2", "Red"), ("3", "Orange"), ("4", "Gold"),
   ("5", "Yellow"), ("6", "Lime"), ("7", "Green"), ("8", "Teal"), ("9", "Cyan"),
   ("10", "Sky"), ("11", "Blue"), ("12", "Indigo"), ("13", "Purple"), ("14", "Violet"),
   ("15", "Pink"), ("16", "Hot Pink"), ("17", "Flesh"), ("18", "Tan"), ("19", "Peach"),
   ("20", "Khaki"), ("21", "Light Green"), ("22", "Sea Foam"), ("23", "Light Blue"),
   ("24", "Lavender"), ("25", "Light Purple"), ("26", "White"), ("69", "Default")]

def WARP_MODES : List (ℤ × String) :=
  [(0, "Beats"), (1, "Tones"), (2, "Texture"), (3, "Re-Pitch"), (4, "Complex"), (6, "Complex Pro")]

def NOTE_NAMES : List String :=
  ["C", "C#", "D", "D#"] ++
  ["E", "F", "F#", "G"] ++
  ["G#", "A", "A#", "B"]

def NOTE_NAMES_FLAT : List String :=
  ["C", "Db", "D", "Eb"] ++
  ["E", "F", "Gb", "G"] ++
  ["Ab", "A", "Bb", "B"]

def LAUNCH_MODES : List (ℤ × String) :=
  [(0, "trigger"), (1, "gate"), (2, "toggle"), (3, "repeat")]

def LAUNCH_QUANT : List (ℤ × String) :=
  [(0, "none"), (1, "8 bars"), (2, "4 bars"), (3, "2 bars"), (4, "1 bar"),
   (5, "1/2"), (6, "1/2T"), (7, "1/4"), (8, "1/4T"), (9, "1/8"), (10, "1/8T"),
   (11, "1/16"), (12, "1/16T"), (13, "1/32")]

def FOLLOW_ACTIONS : List (ℤ × String) :=
  [(0, "none"), (1, "stop"), (2, "again"), (3, "prev"), (4, "next"), (5, "first"),
   (6, "last"), (7, "any"), (8, "other")]

/-- CROSSFADE_STATES (line 73): 0 maps to the Python None, which the caller
treats the same as an absent key, so both are modelled as none here. -/
def crossfadeState (n : ℤ) : Option String :=
  if n = 1 then some "A" else if n = 2 then some "B" else none

def SKIP_PARAMS : List String :=
  ["LomId", "LomIdView", "OverwriteProtectionNumber", "LastSelectedTimeableIndex",
   "LastSelectedClipEnvelopeIndex", "ModulationSourceCount", "IsFolded", "IsExpanded",
   "ShouldShowPresetName", "Annotation", "UserName", "ParametersListWrapper", "LastPresetRef",
   "LockedScripts", "SendsListWrapper", "Pointee", "ViewStateSesstionTrackWidth",
   "SourceContext", "BranchSelectorRange", "IsAutoSelectEnabled", "ChainSelector"]

def MAX_INLINE_PARAMS : ℕ := 4

-- Formatters (source lines 112 to 475).

/-- Source format_db (line 113) after the float() coercion succeeded: the
linear volume is a real and the decibel value uses the real base 10
logarithm, modelling math.log10. -/
noncomputable def format_db (val : ℝ) : String :=
  if val ≤ 0 then "-inf"
  else
    let db := 20 * Real.logb 10 val
    if |db| < 1/10 then "0dB"
    else if db = ((pyTrunc db : ℤ) : ℝ) then fmtPlusInt (pyTrunc db) ++ "dB"
    else fmtPlusFixed db 1 ++ "dB"

/-- Source format_db on its raw string argument: the try block returns 0dB
when float() raises; nothing after the coercion can raise. -/
noncomputable def format_db_str (s : String) : String :=
  match pyFloat s with
  | none => "0dB"
  | some q => format_db (q : ℝ)

/-- Source format_pan (line 127) after the float() coercion succeeded.
Note the percentage uses int(), i.e. truncation. -/
def format_pan (v : ℚ) : String :=
  if |v| < 1/100 then "C"
  else
    let pct := pyTrunc (|v| * 50)
    (if v < 0 then "L" else "R") ++ toString pct

/-- Source format_pan on its raw string argument: the try block returns C
when float() raises. -/
def format_pan_str (s : String) : String :=
  match pyFloat s with
  | none => "C"
  | some q => format_pan q

/-- Source midi_note_name (line 168). Its argument is always an int
produced by parse_midi_notes, so the int() in its try block never
raises and is dropped. Python floor division and modulo are Int.fdiv
and Int.emod. -/
def midi_note_name (pitch : ℤ) : String :=
  NOTE_NAMES.getD (Int.emod pitch 12).toNat "" ++ toString (Int.fdiv pitch 12 - 2)

/-- Source format_param (line 453) after the float() coercion succeeded.
The Python outer if for the boolean rule has no else branch and falls
through to the elif chain, modelled by the shared rest value. -/
def format_param (fval : ℚ) (name : String) : String :=
  let nl := strToLower name
  let rest :=
    if (decide (0 ≤ fval) && decide (fval ≤ 1)) &&
        (containsStr nl "wet" || containsStr nl "mix" || containsStr nl "amount" ||
         containsStr nl "feedback" || containsStr nl "depth" || containsStr nl "gain" ||
         containsStr nl "drive" || containsStr nl "resonance") then
      fmtFixed (fval * 100) 0 ++ "%"
    else if containsStr nl "freq" && !containsStr nl "mod" then
      if decide (1000 ≤ fval) then fmtFixed (fval / 1000) 1 ++ "kHz" else fmtFixed fval 0 ++ "Hz"
    else if (containsStr nl "timesec" || containsStr nl "attack" || containsStr nl "release" ||
         containsStr nl "predelay") && decide (fval < 10) then
      if decide (fval < 1) then fmtFixed (fval * 1000) 0 ++ "ms" else fmtFixed fval 2 ++ "s"
    else if fval = (pyTrunc fval : ℚ) then toString (pyTrunc fval)
    else fmtFixed fval 2
  if fval = 0 ∨ fval = 1 then
    if (!containsStr nl "time" && !containsStr nl "rate") &&
        (containsStr nl "on" || containsStr nl "sync" || containsStr nl "link" ||
         containsStr nl "freeze") then
      if fval = 1 then "on" else "off"
    else rest
  else rest

/-- Source format_param on its raw string argument: the try block returns
str(value), i.e. the string itself, when float() raises. -/
def format_param_str (value name : String) : String :=
  match pyFloat value with
  | none => value
  | some q => format_param q name

/-- Python float modulo for a positive divisor: a - b * floor(a / b). -/
def pyFMod (a b : ℚ) : ℚ := a - b * ⌊a / b⌋

/-- Source format_beats (line 471) after the float() coercion succeeded:
int(beats // 4) + 1 and (beats % 4) + 1 with one decimal. Python float
floor division is modelled by the rational floor. -/
def format_beats_core (b : ℚ) : String :=
  toString (pyTrunc ((⌊b / 4⌋ : ℚ)) + 1) ++ "." ++ fmtFixed (pyFMod b 4 + 1) 1

/-- Source format_beats on its raw string argument: the try block returns
the string unchanged when float() raises. -/
def format_beats (s : String) : String :=
  match pyFloat s with
  | none => s
  | some b => format_beats_core b

-- Normalized model: the dictionaries built by the extractors. Optional
-- dict keys become Option fields; list valued keys that are only stored
-- when nonempty become plain lists with the empty list meaning absent,
-- since every reader only tests them for truthiness or iterates.

structure MixerInfo where
  volume : String
  pan : String
  solo : Bool
  muted : Bool
  sends : List String
deriving Repr, DecidableEq

structure Device where
  name : String
  is_on : Bool
  params : List (String × String)
deriving Repr, DecidableEq

structure WarpInfo where
  mode : String
  markers : Option ℕ
deriving Repr, DecidableEq

structure MidiSummary where
  count : ℕ
  range : String
deriving Repr, DecidableEq

structure LaunchInfo where
  launch_mode : Option String
  launch_quant : Option String
  follow : Option String
  ram : Bool
deriving Repr, DecidableEq

/-- The Python code stores the launch dict only when it is truthy, i.e.
nonempty. -/
def LaunchInfo.isEmpty (l : LaunchInfo) : Bool :=
  l.launch_mode.isNone && l.launch_quant.isNone && l.follow.isNone && !l.ram

/-- One clip dictionary. The source key end is the Lean keyword end and is
renamed stop. -/
structure Clip where
  name : String
  start : String
  stop : String
  looped : Bool
  muted : Bool
  time_float : ℚ
  clip_offset : Option String
  audio_file : Option String
  adjustments : List String
  fades : List String
  warp : Option WarpInfo
  midi_notes : Option MidiSummary
  groove : Bool
  launch : Option LaunchInfo
deriving Repr, DecidableEq

structure Routing where
  input : Option String
  output : Option String
  midi_in : Option String
  midi_out : Option String
deriving Repr, DecidableEq

def emptyRouting : Routing := ⟨none, none, none, none⟩

structure TrackState where
  frozen : Bool
  group_id : Option String
  group_name : Option String
  delay_ms : Option ℚ
  crossfade : Option String
deriving Repr, DecidableEq

def emptyState : TrackState := ⟨false, none, none, none, none⟩

structure Track where
  type : String
  name : String
  color : String
  devices : List Device
  arrangement_clips : List Clip
  session_clips : List Clip
  mixer : Option MixerInfo
  routing : Routing
  state : TrackState
deriving Repr, DecidableEq

/-- The four track kind lists of parse_als; the source dict keys return and
group are the Lean keyword return and the shorter grp. -/
structure TrackLists where
  audio : List Track
  midi : List Track
  ret : List Track
  grp : List Track
deriving Repr, DecidableEq

def emptyTrackLists : TrackLists := ⟨[], [], [], []⟩

structure ProjectInfo where
  key : Option String
  loopRegion : Option (ℤ × ℤ × ℤ)
deriving Repr, DecidableEq

structure Project where
  creator : String
  tempo : String
  time_sig : String
  tracks : TrackLists
  locators : List (String × String)
  master : Option Track
  scenes : List (ℕ × String)
  tempo_automated : Bool
  project_info : ProjectInfo
deriving Repr, DecidableEq

/-- Result of parse_als: either the error dict of the decode failure
branch or the full project dict. -/
inductive ParseResult where
  | error (msg : String)
  | project (p : Project)
deriving Repr, DecidableEq

/-- The outcome of the input pipeline of parse_als (line 626): reading,
gzip decompression and UTF-8 decoding happen inside a try whose failures
are modelled by failDecomp; ET.fromstring on line 630 runs outside that
try, and the text not being well-formed XML is modelled by malformed;
wellFormed carries the parsed root element. -/
inductive AlsInput where
  | failDecomp (msg : String)
  | malformed (msg : String)
  | wellFormed (root : Elem)

-- Extractors (source lines 90 to 624). Functions that can raise an
-- uncaught Python exception return Except String, the error being the
-- exception message; all other functions are total.

def basenamePosix (p : String) : String :=
  (strSplitOn p "/").getLastD p

/-- Models os.path.splitext composed with basename for names with a
nonempty stem, the only shape reaching it here. -/
def dropExt (s : String) : String :=
  match strSplitOn s "." with
  | [_] => s
  | parts => String.intercalate "." parts.dropLast

/-- Source get_preset_name (line 90): first RelativePath descendant (or
self) whose Value ends in .adv, reduced to its base name without
extension. -/
def get_preset_name (dev : Elem) : Option String :=
  match (dev :: Elem.descendants dev).filter
      (fun e => e.tag == "RelativePath" && strEndsWith (e.getA "Value" "") ".adv") with
  | [] => none
  | e :: _ => some (dropExt (basenamePosix (e.getA "Value" "")))

/-- Macro name matching the default pattern of re.match with
anchored Macro digits. -/
def isDefaultMacroName (s : String) : Bool :=
  strStartsWith s "Macro " && (strDropN s 6) ≠ "" && (strDropN s 6).data.all isDigitCh

/-- Source get_macro_display_names (line 97): tag index behind
MacroDisplayNames. with a custom (non default) nonempty name; int()
failures on the tag suffix are caught and skip the entry. -/
def get_macro_display_names (dev : Elem) : List (ℤ × String) :=
  dev.children.foldl
    (fun m child =>
      if strStartsWith child.tag "MacroDisplayNames." then
        match pyInt ((strSplitOn child.tag ".").getD 1 "") with
        | none => m
        | some idx =>
          let nm := child.getA "Value" ""
          if nm ≠ "" && !isDefaultMacroName nm then dictInsert m idx nm else m
      else m)
    []

/-- Source parse_track_mixer (line 139): an absent Mixer element yields the
empty dict, modelled as none. -/
noncomputable def parse_track_mixer (track : Elem) : Option MixerInfo :=
  match find1 track [Seg.desc "DeviceChain", Seg.child "Mixer"] with
  | none => none
  | some mixer =>
    let sends :=
      match find1 mixer [Seg.child "Sends"] with
      | none => []
      | some se =>
        (se.children.filter (fun c => c.tag == "TrackSendHolder")).map
          (fun h => format_db_str (get_attr (some h) [Seg.child "Send", Seg.child "Manual"] "0.0003162277571"))
    some
      { volume := format_db_str (get_attr (some mixer) [Seg.child "Volume", Seg.child "Manual"] "1")
        pan := format_pan_str (get_attr (some mixer) [Seg.child "Pan", Seg.child "Manual"] "0")
        solo := get_attr (some mixer) [Seg.child "SoloSink"] "false" == "true"
        muted := get_attr (some mixer) [Seg.child "Speaker", Seg.child "Manual"] "true" == "false"
        sends := sends }

/-- Source parse_midi_notes (line 179): note count and pitch range over
KeyTracks; int() failures on a MidiKey are caught and skip that track. -/
def parse_midi_notes (clip : Elem) : Option MidiSummary :=
  let acc :=
    (findall clip [Seg.desc "Notes", Seg.child "KeyTracks", Seg.child "KeyTrack"]).foldl
      (fun (acc : List ℤ × ℕ) kt =>
        match find1 kt [Seg.child "MidiKey"] with
        | none => acc
        | some mk =>
          match pyInt (mk.getA "Value" "0") with
          | none => acc
          | some pitch =>
            let notes := findall kt [Seg.child "Notes", Seg.child "MidiNoteEvent"]
            if !notes.isEmpty then (acc.1 ++ [pitch], acc.2 + notes.length) else acc)
      ([], 0)
  match acc with
  | ([], _) => none
  | (p :: ps, count) =>
    if count = 0 then none
    else
      some
        { count := count
          range := midi_note_name ((p :: ps).foldl min p) ++ "-" ++ midi_note_name ((p :: ps).foldl max p) }

/-- Source get_audio_ref (line 208): RelativePath base name, else the Name
value (which may be empty and is then dropped by the caller), else
nothing. -/
def get_audio_ref (clip : Elem) : Option String :=
  let byName :=
    match find1 clip [Seg.desc "SampleRef", Seg.child "FileRef", Seg.child "Name"] with
    | some ref => some (ref.getA "Value" "")
    | none => none
  match find1 clip [Seg.desc "SampleRef", Seg.child "FileRef", Seg.child "RelativePath"] with
  | some ref =>
    let path := ref.getA "Value" ""
    if path ≠ "" then some (basenamePosix path) else byName
  | none => byName

/-- Source get_clip_adjustments (line 223): gain, transpose and fine tune
deviations from their defaults; each float()/int() failure is caught and
skips only its own entry. -/
noncomputable def get_clip_adjustments (clip : Elem) : List String :=
  (match pyFloat (get_attr (some clip) [Seg.child "SampleVolume"] "1") with
   | some vol => if |vol - 1| > 1/100 then [format_db (vol : ℝ)] else []
   | none => []) ++
  (match pyFloat (get_attr (some clip) [Seg.child "PitchCoarse"] "0") with
   | some t => if pyTrunc t ≠ 0 then [fmtPlusInt (pyTrunc t) ++ "st"] else []
   | none => []) ++
  (match pyFloat (get_attr (some clip) [Seg.child "PitchFine"] "0") with
   | some f => if |f| > 1/10 then [fmtPlusFixed f 0 ++ "ct"] else []
   | none => [])

/-- Source get_fades (line 257). The fades_on flag computed on lines 262
and 263 is never read afterwards and is dropped here. -/
def get_fades (clip : Elem) : List String :=
  (match pyFloat (get_attr (some clip) [Seg.child "Fades", Seg.child "FadeInLength"] "0") with
   | some fi =>
     if fi > 1/1000 then
       [if 1 ≤ fi then "fade in: " ++ fmtFixed fi 2 ++ "s"
        else "fade in: " ++ fmtFixed (fi * 1000) 0 ++ "ms"]
     else []
   | none => []) ++
  (match pyFloat (get_attr (some clip) [Seg.child "Fades", Seg.child "FadeOutLength"] "0") with
   | some fo =>
     if fo > 1/1000 then
       [if 1 ≤ fo then "fade out: " ++ fmtFixed fo 2 ++ "s"
        else "fade out: " ++ fmtFixed (fo * 1000) 0 ++ "ms"]
     else []
   | none => [])

/-- The warp marker count of a clip (line 294): the number of WarpMarker
children of WarpMarkers subtrees. -/
def warpMarkerCount (clip : Elem) : ℕ :=
  (findall clip [Seg.desc "WarpMarkers", Seg.child "WarpMarker"]).length

/-- Source get_warp_info (line 285). The int(warp_mode) on line 292 is not
inside any try block: a WarpMode value that int() rejects raises an
uncaught ValueError, modelled as the error case. -/
def get_warp_info (clip : Elem) : Except String (Option WarpInfo) :=
  let is_warped := get_attr (some clip) [Seg.child "IsWarped"] "true" == "true"
  if !is_warped then .ok none
  else
    let warp_mode := get_attr (some clip) [Seg.child "WarpMode"] "0"
    match pyInt warp_mode with
    | none => .error ("invalid literal for int() with base 10: " ++ warp_mode)
    | some m =>
      let mode_name := ((WARP_MODES.lookup m).getD "Unknown")
      let marker_count := warpMarkerCount clip
      if 2 < marker_count then .ok (some { mode := mode_name, markers := some marker_count })
      else if 0 < marker_count then .ok (some { mode := mode_name, markers := none })
      else .ok none

/-- Source has_groove (line 305): nonnegative GrooveId; int() failures are
caught and yield false. -/
def has_groove (clip : Elem) : Bool :=
  match pyInt (get_attr (some clip) [Seg.child "GrooveSettings", Seg.child "GrooveId"] "-1") with
  | some g => decide (0 ≤ g)
  | none => false

/-- Source parse_project_info (line 314): key and loop region. Each try
block absorbs its own int()/float() failures. -/
def parse_project_info (root : Elem) : ProjectInfo :=
  let key :=
    match find1 root [Seg.desc "ScaleInformation"] with
    | none => none
    | some scale =>
      match pyInt (get_attr (some scale) [Seg.child "RootNote"] "0") with
      | none => none
      | some rn =>
        if 0 ≤ rn ∧ rn < 12 then
          some (NOTE_NAMES_FLAT.getD rn.toNat "" ++ " " ++ get_attr (some scale) [Seg.child "Name"] "Major")
        else none
  let loopR :=
    match find1 root [Seg.desc "Transport"] with
    | none => none
    | some transport =>
      if get_attr (some transport) [Seg.child "LoopOn"] "false" == "true" then
        match pyFloat (get_attr (some transport) [Seg.child "LoopStart"] "0"),
            pyFloat (get_attr (some transport) [Seg.child "LoopLength"] "16") with
        | some start, some len => some (⌊start / 4⌋ + 1, ⌊(start + len) / 4⌋ + 1, ⌊len / 4⌋)
        | _, _ => none
      else none
  { key := key, loopRegion := loopR }

/-- Source parse_track_routing (line 346). -/
def parse_track_routing (track : Elem) : Routing :=
  let read (rtype : String) : Option String :=
    match find1 track [Seg.desc "DeviceChain", Seg.child rtype] with
    | none => none
    | some elem =>
      let upper := get_attr (some elem) [Seg.child "UpperDisplayString"] ""
      let lower := get_attr (some elem) [Seg.child "LowerDisplayString"] ""
      if upper ≠ "" then
        some (if lower ≠ "" then strTrim (upper ++ " " ++ lower) else upper)
      else none
  { input := read "AudioInputRouting"
    output := read "AudioOutputRouting"
    midi_in := read "MidiInputRouting"
    midi_out := read "MidiOutputRouting" }

/-- Source parse_track_state (line 362); group_name is filled in later by
the parse_als loop. -/
def parse_track_state (track : Elem) : TrackState :=
  let gid := get_attr (some track) [Seg.child "TrackGroupId"] "-1"
  { frozen := get_attr (some track) [Seg.child "Freeze"] "false" == "true"
    group_id := if gid ≠ "-1" then some gid else none
    group_name := none
    delay_ms :=
      match find1 track [Seg.child "TrackDelay"] with
      | none => none
      | some d =>
        match pyFloat (get_attr (some d) [Seg.child "Value"] "0") with
        | none => none
        | some q => if |q| > 1/100 then some q else none
    crossfade :=
      match pyInt (get_attr (some track) [Seg.desc "Mixer", Seg.child "CrossFadeState"] "0") with
      | none => none
      | some n => crossfadeState n }

/-- Source build_group_map (line 398): map from GroupTrack Id attribute to
effective name, in document order with dict overwrite semantics. -/
def build_group_map (root : Elem) : List (String × String) :=
  (findall root [Seg.desc "Tracks", Seg.child "GroupTrack"]).foldl
    (fun m t =>
      let tid := t.getA "Id" ""
      if tid ≠ "" then dictInsert m tid (get_attr (some t) [Seg.child "Name", Seg.child "EffectiveName"] "Group")
      else m)
    []

/-- Source parse_launch_settings (line 409). Every int()/float() failure is
inside a try and skips only its own setting. -/
def parse_launch_settings (clip : Elem) : LaunchInfo :=
  { launch_mode :=
      match pyInt (get_attr (some clip) [Seg.child "LaunchMode"] "0") with
      | none => none
      | some m => if m ≠ 0 then some ((LAUNCH_MODES.lookup m).getD (toString m)) else none
    launch_quant :=
      match pyInt (get_attr (some clip) [Seg.child "LaunchQuantisation"] "0") with
      | none => none
      | some q => if 0 < q then some ((LAUNCH_QUANT.lookup q).getD (toString q)) else none
    follow :=
      if get_attr (some clip) [Seg.child "FollowAction", Seg.child "FollowActionEnabled"] "false" == "true" then
        match pyInt (get_attr (some clip) [Seg.child "FollowAction", Seg.child "FollowActionA"] "0") with
        | none => none
        | some a =>
          let action := (FOLLOW_ACTIONS.lookup a).getD "unknown"
          if action ≠ "none" then
            match pyFloat (get_attr (some clip) [Seg.child "FollowAction", Seg.child "FollowTime"] "4") with
            | none => none
            | some ft =>
              let tb := ft / 4
              some (action ++ " @ " ++ fmtFixed tb 0 ++ (if tb = 1 then " bar" else " bars"))
          else none
      else none
    ram := get_attr (some clip) [Seg.child "Ram"] "false" == "true" }

/-- Source parse_clip (nested in parse_track, line 530). The only
statements that can raise are float() on the Time attribute (line 540)
and get_warp_info for audio clips; both propagate out uncaught.
The source formats the clip offset with format_beats(str(ls + sr));
str of a float followed by float() is the identity on the value, so it
is modelled as format_beats_core applied to the sum. -/
noncomputable def parse_clip (clip : Elem) : Except String Clip := do
  let is_audio := clip.tag == "AudioClip"
  let timeRaw := clip.getA "Time" "0"
  let tf ←
    match pyFloat timeRaw with
    | none => Except.error ("could not convert string to float: " ++ timeRaw)
    | some tf => Except.ok tf
  let clip_offset :=
    match pyFloat (get_attr (some clip) [Seg.child "Loop", Seg.child "LoopStart"] "0"),
        pyFloat (get_attr (some clip) [Seg.child "Loop", Seg.child "StartRelative"] "0") with
    | some ls, some sr => if sr ≠ 0 ∨ ls ≠ 0 then some (format_beats_core (ls + sr)) else none
    | _, _ => none
  let warp ← if is_audio then get_warp_info clip else pure none
  let audio_file :=
    if is_audio then
      match get_audio_ref clip with
      | some s => if s ≠ "" then some s else none
      | none => none
    else none
  pure
    { name := get_attr (some clip) [Seg.child "Name"] "unnamed"
      start := format_beats timeRaw
      stop := format_beats (get_attr (some clip) [Seg.child "CurrentEnd"] "?")
      looped := get_attr (some clip) [Seg.child "Loop", Seg.child "LoopOn"] "false" == "true"
      muted := get_attr (some clip) [Seg.child "Disabled"] "false" == "true"
      time_float := tf
      clip_offset := clip_offset
      audio_file := audio_file
      adjustments := if is_audio then get_clip_adjustments clip else []
      fades := if is_audio then get_fades clip else []
      warp := warp
      midi_notes := if is_audio then none else parse_midi_notes clip
      groove := has_groove clip
      launch := none }

/-- Device extraction, the body of the devices loop of parse_track
(lines 495 to 527). -/
def parseDevice (dev : Elem) : Device :=
  let p1 := (get_preset_name dev).getD ""
  let p2 := get_attr (some dev) [Seg.child "UserName"] ""
  let macro_names := if strEndsWith dev.tag "GroupDevice" then get_macro_display_names dev else []
  let params :=
    dev.children.foldl
      (fun ps child =>
        if SKIP_PARAMS.contains child.tag || child.tag == "On" then ps
        else if strStartsWith child.tag "MacroDisplayNames." then ps
        else if strStartsWith child.tag "MacroControls." then
          match find1 child [Seg.child "Manual"] with
          | none => ps
          | some manual =>
            let v := manual.getA "Value" ""
            if v ≠ "" then
              match pyInt ((strSplitOn child.tag ".").getD 1 "") with
              | none => ps
              | some idx =>
                match macro_names.lookup idx with
                | some pname => dictInsert ps pname (format_param_str v pname)
                | none => ps
            else ps
        else
          match find1 child [Seg.child "Manual"] with
          | none => ps
          | some manual =>
            let v := manual.getA "Value" ""
            if v ≠ "" then dictInsert ps child.tag (format_param_str v child.tag) else ps)
      []
  { name := if p1 ≠ "" then p1 else if p2 ≠ "" then p2 else dev.tag
    is_on := get_attr (some dev) [Seg.child "On", Seg.child "Manual"] "true" == "true"
    params := params }

def arrangementClipElems (track : Elem) : List Elem :=
  findall track [Seg.desc "ArrangerAutomation", Seg.child "Events", Seg.child "AudioClip"] ++
  findall track [Seg.desc "ArrangerAutomation", Seg.child "Events", Seg.child "MidiClip"]

def sessionClipElems (track : Elem) : List Elem :=
  findall track [Seg.desc "ClipSlotList", Seg.desc "AudioClip"] ++
  findall track [Seg.desc "ClipSlotList", Seg.desc "MidiClip"]

/-- The body of the session clips loop of parse_track (lines 578 to 583):
parse the clip, then attach the launch settings when they are nonempty. -/
noncomputable def parse_session_clip (c : Elem) : Except String Clip := do
  let ci ← parse_clip c
  let l := parse_launch_settings c
  pure (if l.isEmpty then ci else { ci with launch := some l })

/-- Source parse_track (line 477). -/
noncomputable def parse_track (track : Elem) (is_master : Bool) : Except String Track := do
  let devices :=
    match
      (if is_master then find1 track [Seg.desc "DeviceChain", Seg.child "Devices"]
       else find1 track [Seg.desc "DeviceChain", Seg.child "DeviceChain", Seg.child "Devices"]) with
    | none => []
    | some de =>
      (de.children.filter
          (fun dev => !(dev.tag == "AudioEffectBranchGroup" || dev.tag == "MidiEffectBranchGroup" ||
            dev.tag == "InstrumentBranchGroup"))).map parseDevice
  let arr ← mapMEx parse_clip (arrangementClipElems track)
  let sess ← mapMEx parse_session_clip (sessionClipElems track)
  pure
    { type := strReplace track.tag "Track" ""
      name := get_attr (some track) [Seg.child "Name", Seg.child "EffectiveName"] "Untitled"
      color := (COLORS.lookup (get_attr (some track) [Seg.child "Color"] "69")).getD "Default"
      devices := devices
      arrangement_clips := stableSortLe (fun a b => decide (a.time_float ≤ b.time_float)) arr
      session_clips := sess
      mixer := parse_track_mixer track
      routing := if is_master then emptyRouting else parse_track_routing track
      state := if is_master then emptyState else parse_track_state track }

/-- Source parse_master_track (line 591). -/
noncomputable def parse_master_track (root : Elem) : Except String (Option Track) :=
  match find1 root [Seg.desc "MasterTrack"] with
  | none => Except.ok none
  | some m => (parse_track m true).map some

def sceneElems (root : Elem) : List Elem :=
  match find1 root [Seg.desc "Scenes"] with
  | none => []
  | some se => se.children.filter (fun c => c.tag == "Scene")

/-- Source parse_scenes (line 599): 1-based enumeration over all Scene
children, keeping only nonempty names that do not start with the default
Scene space pattern. -/
def parse_scenes (root : Elem) : List (ℕ × String) :=
  (sceneElems root).enum.filterMap
    (fun p =>
      let nm := get_attr (some p.2) [Seg.child "Name"] ""
      if nm ≠ "" ∧ ¬ strStartsWith nm "Scene " then some (p.1 + 1, nm) else none)

/-- Source is_tempo_automated (line 612). -/
def is_tempo_automated (root : Elem) : Bool :=
  let envPath := [Seg.desc "MasterTrack", Seg.desc "AutomationEnvelopes", Seg.desc "Envelopes",
    Seg.desc "AutomationEnvelope"]
  let viaPointee :=
    match find1 root envPath with
    | some env => (find1 env [Seg.desc "PointeeId"]).isSome
    | none => false
  if viaPointee then true
  else (findall root (envPath ++ [Seg.desc "Events", Seg.desc "FloatEvent"])).length > 1

/-- The group name resolution applied to each track inside the parse_als
loop (lines 643 to 645); the truthiness test rules out both an absent
and an empty group id. -/
def resolveGroup (gm : List (String × String)) (t : Track) : Track :=
  match t.state.group_id with
  | some gid =>
    if gid ≠ "" then
      match gm.lookup gid with
      | some gname => { t with state := { t.state with group_name := some gname } }
      | none => t
    else t
  | none => t

def tracksPath : List Seg := [Seg.desc "Tracks"]

def tracksChildren (root : Elem) : List Elem :=
  match find1 root tracksPath with
  | some te => te.children
  | none => []

/-- The track partition loop of parse_als (lines 638 to 649): every child
of the Tracks element is parsed, then appended to the list matching its
tag; children with any other tag are parsed but stored nowhere. -/
noncomputable def buildTracks (gm : List (String × String)) : List Elem → Except String TrackLists
  | [] => Except.ok emptyTrackLists
  | t :: rest => do
    let info₀ ← parse_track t false
    let info := resolveGroup gm info₀
    let tl ← buildTracks gm rest
    pure
      (if t.tag == "AudioTrack" then { tl with audio := info :: tl.audio }
       else if t.tag == "MidiTrack" then { tl with midi := info :: tl.midi }
       else if t.tag == "ReturnTrack" then { tl with ret := info :: tl.ret }
       else if t.tag == "GroupTrack" then { tl with grp := info :: tl.grp }
       else tl)

/-- Source parse_als (line 626). The gzip/read/decode try yields the error
dict; a malformed document makes ET.fromstring raise outside any try,
modelled by the Except error; any exception of the extractors
propagates. -/
noncomputable def parse_als (input : AlsInput) : Except String ParseResult :=
  match input with
  | .failDecomp e => Except.ok (ParseResult.error e)
  | .malformed e => Except.error e
  | .wellFormed root => do
    let gm := build_group_map root
    let tls ←
      match find1 root tracksPath with
      | none => pure emptyTrackLists
      | some te => buildTracks gm te.children
    let locators :=
      (findall root [Seg.desc "Locators", Seg.child "Locators", Seg.child "Locator"]).filterMap
        (fun loc =>
          let nm := get_attr (some loc) [Seg.child "Name"] ""
          if nm ≠ "" then some (nm, format_beats (get_attr (some loc) [Seg.child "Time"] "0"))
          else none)
    let master ← parse_master_track root
    pure (ParseResult.project
      { creator := root.getA "Creator" "Unknown"
        tempo := get_attr (some root) [Seg.desc "Tempo", Seg.child "Manual"] "120"
        time_sig :=
          get_attr (some root) [Seg.desc "TimeSignature", Seg.child "Manual", Seg.child "Numerator"] "4"
          ++ "/" ++
          get_attr (some root) [Seg.desc "TimeSignature", Seg.child "Manual", Seg.child "Denominator"] "4"
        tracks := tls
        locators := locators
        master := master
        scenes := parse_scenes root
        tempo_automated := is_tempo_automated root
        project_info := parse_project_info root })

-- Renderer (source lines 673 to 864). All renderer functions are pure
-- string builders over the normalized model.

/-- Source format_device_params (line 673). -/
def format_device_params (params : List (String × String)) (indent : String) : String :=
  if params.isEmpty then ""
  else if params.length ≤ MAX_INLINE_PARAMS then
    " (" ++ String.intercalate ", " (params.map (fun p => p.1 ++ "=" ++ p.2)) ++ ")"
  else
    String.intercalate "\n" (":" :: params.map (fun p => indent ++ "    " ++ p.1 ++ ": " ++ p.2))

/-- Source format_mixer_info (line 686): the parts list always contains the
volume and pan entries, so the bracket is emitted whenever a mixer dict
is present, matching the source truthiness test on parts. -/
def format_mixer_info (mixer : Option MixerInfo) : String :=
  match mixer with
  | none => ""
  | some m =>
    let parts :=
      (if m.solo then ["SOLO"] else []) ++
      (if m.muted then ["MUTED"] else []) ++
      ["Vol: " ++ m.volume, "Pan: " ++ m.pan] ++
      m.sends.enum.filterMap
        (fun p =>
          if p.2 ≠ "-inf" then
            some ("Send " ++ String.singleton (Char.ofNat (65 + p.1)) ++ ": " ++ p.2)
          else none)
    if !parts.isEmpty then " [" ++ String.intercalate ", " parts ++ "]" else ""

/-- The format_clip helper nested in format_output (line 797). -/
def format_clip (c : Clip) (is_session : Bool) : String :=
  let flags :=
    (if c.looped then ["loop"] else []) ++
    (if c.muted then ["muted"] else []) ++
    (match c.clip_offset with | some o => ["from " ++ o] | none => []) ++
    (match c.audio_file with | some f => [f] | none => []) ++
    (match c.midi_notes with
     | some mi => [toString mi.count ++ " notes, " ++ mi.range]
     | none => []) ++
    c.adjustments ++ c.fades ++
    (match c.warp with
     | some w =>
       ["warped: " ++ w.mode ++
        (match w.markers with | some k => ", " ++ toString k ++ " markers" | none => "")]
     | none => []) ++
    (if c.groove then ["groove"] else []) ++
    (if is_session then
      match c.launch with
      | some l =>
        (match l.launch_mode with | some s => [s] | none => []) ++
        (match l.launch_quant with | some s => [s] | none => []) ++
        (match l.follow with | some f => ["follow: " ++ f] | none => []) ++
        (if l.ram then ["RAM"] else [])
      | none => []
     else [])
  let flag_str := if !flags.isEmpty then " [" ++ String.intercalate ", " flags ++ "]" else ""
  "\"" ++ c.name ++ "\" @ " ++ c.start ++ " - " ++ c.stop ++ flag_str

/-- The arrangement clip lines of one track (lines 828 to 831). -/
def arrangementLines (arr : List Clip) : List String :=
  if arr.isEmpty then []
  else
    ("      Arrangement (" ++ toString arr.length ++ "):") ::
    arr.map (fun c => "        - " ++ format_clip c false)

/-- The session slot lines of one track (lines 832 to 838): the header with
the full count, the first three clips, and the overflow line when more
than three exist. -/
def sessionSlotLines (sess : List Clip) : List String :=
  if sess.isEmpty then []
  else
    ("      Session Slots (" ++ toString sess.length ++ "):") ::
    (sess.take 3).map (fun c => "        - " ++ format_clip c true) ++
    (if 3 < sess.length then
      ["        ... and " ++ toString (sess.length - 3) ++ " more in slots"]
     else [])

/-- The per track body of the render loop of format_output (lines 750 to
838), for the 1-based index i. -/
def renderTrackLines (i : ℕ) (t : Track) : List String :=
  let state_flags := if t.state.frozen then ["FROZEN"] else []
  let extra :=
    (match t.state.crossfade with | some cf => ["XF: " ++ cf] | none => []) ++
    (match t.state.delay_ms with | some d => ["delay: " ++ fmtFixed d 0 ++ "ms"] | none => [])
  let input_r := t.routing.input.getD ""
  let output_r := t.routing.output.getD ""
  let routing_str :=
    (if input_r ≠ "" ∧ ¬ strStartsWith input_r "Ext. In" then " In: " ++ input_r else "") ++
    (if output_r ≠ "" ∧ output_r ≠ "Master" then " → " ++ output_r else "")
  let group_str :=
    match t.state.group_name with
    | some g => " (in \"" ++ g ++ "\")"
    | none => ""
  let flags_str := if !state_flags.isEmpty then " [" ++ String.intercalate ", " state_flags ++ "]" else ""
  let extra_str := if !extra.isEmpty then " [" ++ String.intercalate ", " extra ++ "]" else ""
  ("  [" ++ toString i ++ "] " ++ t.name ++ " (" ++ t.color ++ ")" ++ flags_str ++
    format_mixer_info t.mixer ++ extra_str ++ routing_str ++ group_str) ::
  (if !t.devices.isEmpty then
    "      Devices:" ::
    t.devices.map
      (fun d => "        - " ++ (if d.is_on then "" else "[OFF] ") ++ d.name ++
        format_device_params d.params "          ")
   else []) ++
  arrangementLines t.arrangement_clips ++
  sessionSlotLines t.session_clips

/-- One track kind section of format_output (lines 747 to 839). -/
def renderSection (label : String) (ts : List Track) : List String :=
  if ts.isEmpty then []
  else
    strRepeat '-' 40 ::
    (label ++ " TRACKS (" ++ toString ts.length ++ "):") ::
    ts.enum.flatMap (fun p => renderTrackLines (p.1 + 1) p.2) ++ [""]

/-- Source format_output (line 714): the error dict renders as the single
ERROR line; otherwise the full summary document. -/
def format_output (p : ParseResult) : String :=
  match p with
  | .error e => "ERROR: " ++ e
  | .project p =>
    let head :=
      [strRepeat '=' 60, "ABLETON PROJECT SUMMARY", strRepeat '=' 60,
       "Creator: " ++ p.creator] ++
      (match p.project_info.key with | some k => ["Key: " ++ k] | none => []) ++
      ["Tempo: " ++ p.tempo ++ " BPM" ++ (if p.tempo_automated then " [automated]" else ""),
       "Time Signature: " ++ p.time_sig] ++
      (match p.project_info.loopRegion with
       | some (s, e, n) =>
         ["Loop: bars " ++ toString s ++ "-" ++ toString e ++ " (" ++ toString n ++ " " ++
          (if n = 1 then "bar" else "bars") ++ ")"]
       | none => []) ++
      [""]
    let locs :=
      if !p.locators.isEmpty then
        strRepeat '-' 40 :: "MARKERS:" ::
        p.locators.map (fun l => "  [" ++ l.2 ++ "] " ++ l.1) ++ [""]
      else []
    let trackSecs :=
      renderSection "AUDIO" p.tracks.audio ++ renderSection "MIDI" p.tracks.midi ++
      renderSection "RETURN" p.tracks.ret ++ renderSection "GROUP" p.tracks.grp
    let masterSec :=
      match p.master with
      | none => []
      | some m =>
        strRepeat '-' 40 :: "MASTER:" ::
        (match m.mixer with | some mx => ["  Volume: " ++ mx.volume] | none => []) ++
        (if !m.devices.isEmpty then
          "  Devices:" ::
          m.devices.map
            (fun d => "    - " ++ (if d.is_on then "" else "[OFF] ") ++ d.name ++
              format_device_params d.params "      ")
         else []) ++
        [""]
    let sceneSec :=
      if !p.scenes.isEmpty then
        strRepeat '-' 40 :: "SCENES:" ::
        p.scenes.map (fun s => "  [" ++ toString s.1 ++ "] " ++ s.2) ++ [""]
      else []
    String.intercalate "\n" (head ++ locs ++ trackSecs ++ masterSec ++ sceneSec ++ [strRepeat '=' 60])

-- Specification side definitions: these follow the wording of the spec
-- (not the source) and are compared against the source translations in
-- the refinement theorems below.

/-- The ordered name based classification table of the spec for generic
parameters, as data: a list of (predicate, transform) rules evaluated
top to bottom. -/
def paramRules : List ((ℚ → String → Bool) × (ℚ → String)) :=
  [(fun v n =>
      (v == 0 || v == 1) &&
      ((!containsStr n "time" && !containsStr n "rate") &&
       (containsStr n "on" || containsStr n "sync" || containsStr n "link" ||
        containsStr n "freeze")),
    fun v => if v = 1 then "on" else "off"),
   (fun v n =>
      (decide (0 ≤ v) && decide (v ≤ 1)) &&
      (containsStr n "wet" || containsStr n "mix" || containsStr n "amount" ||
       containsStr n "feedback" || containsStr n "depth" || containsStr n "gain" ||
       containsStr n "drive" || containsStr n "resonance"),
    fun v => fmtFixed (v * 100) 0 ++ "%"),
   (fun _ n => containsStr n "freq" && !containsStr n "mod",
    fun v => if decide (1000 ≤ v) then fmtFixed (v / 1000) 1 ++ "kHz" else fmtFixed v 0 ++ "Hz"),
   (fun v n =>
      (containsStr n "timesec" || containsStr n "attack" || containsStr n "release" ||
       containsStr n "predelay") && decide (v < 10),
    fun v => if decide (v < 1) then fmtFixed (v * 1000) 0 ++ "ms" else fmtFixed v 2 ++ "s")]

/-- Fallback rule of the spec table: integer when exact, else two
decimals. -/
def paramFallback (v : ℚ) : String :=
  if v = (pyTrunc v : ℚ) then toString (pyTrunc v) else fmtFixed v 2

/-- Evaluate an ordered rule table top to bottom, the first matching rule
winning, with the fallback when none matches. -/
def evalParamRules : List ((ℚ → String → Bool) × (ℚ → String)) → ℚ → String → String
  | [], v, _ => paramFallback v
  | (p, f) :: rest, v, n => if p v n then f v else evalParamRules rest v n

/-- The spec description of the generic parameter classifier: the fixed
rule table evaluated in order over the lowercased name. -/
def format_param_spec (v : ℚ) (name : String) : String :=
  evalParamRules paramRules v (strToLower name)

/-- The spec description of scene extraction: for every 1-based position i
among all Scene elements, keep the scene exactly when its name is
nonempty and does not start with the default Scene prefix, carrying i
unchanged. -/
def parse_scenes_spec (root : Elem) : List (ℕ × String) :=
  (List.range (sceneElems root).length).filterMap
    (fun j =>
      match (sceneElems root).get? j with
      | some sc =>
        let nm := get_attr (some sc) [Seg.child "Name"] ""
        if nm ≠ "" ∧ ¬ strStartsWith nm "Scene " then some (j + 1, nm) else none
      | none => none)

-- Concrete fixtures used by counterexamples and witnesses.

/-- An audio clip whose WarpMode attribute value is not numeric. -/
def warpClipBad : Elem :=
  .node "AudioClip" [("Time", "0")] [.node "WarpMode" [("Value", "abc")] []]

/-- A project whose only track holds warpClipBad on its arrangement. -/
def warpRootBad : Elem :=
  .node "Ableton" []
    [.node "Tracks" []
      [.node "AudioTrack" []
        [.node "ArrangerAutomation" [] [.node "Events" [] [warpClipBad]]]]]

/-- A warped audio clip in mode 4 with three warp markers. -/
def warpClip3 : Elem :=
  .node "AudioClip" []
    [.node "WarpMode" [("Value", "4")] [],
     .node "WarpMarkers" []
       [.node "WarpMarker" [] [], .node "WarpMarker" [] [], .node "WarpMarker" [] []]]

/-- The model of a session MidiClip with no content, as parse_clip builds
it from a bare MidiClip element. -/
def blankClip : Clip :=
  { name := "unnamed", start := "1.1.0", stop := "?", looped := false, muted := false,
    time_float := 0, clip_offset := none, audio_file := none, adjustments := [], fades := [],
    warp := none, midi_notes := none, groove := false, launch := none }

/-- A midi track with five empty session clips. -/
def sessTrack5 : Elem :=
  .node "MidiTrack" []
    [.node "ClipSlotList" []
      [.node "MidiClip" [("Time", "0")] [], .node "MidiClip" [("Time", "0")] [],
       .node "MidiClip" [("Time", "0")] [], .node "MidiClip" [("Time", "0")] [],
       .node "MidiClip" [("Time", "0")] []]]

/-- The four track tags that the parse_als partition recognizes. -/
def isKindTag (tag : String) : Bool :=
  tag == "AudioTrack" || tag == "MidiTrack" || tag == "ReturnTrack" || tag == "GroupTrack"

/-- A project whose Tracks element has one child of an unrecognized kind. -/
def partitionRootOdd : Elem :=
  .node "Ableton" [] [.node "Tracks" [] [.node "VideoTrack" [] []]]

/-- The project model parse_als produces for partitionRootOdd: every track
list is empty although Tracks has one child. -/
def partitionProjOdd : Project :=
  { creator := "Unknown", tempo := "120", time_sig := "4/4",
    tracks := emptyTrackLists, locators := [], master := none, scenes := [],
    tempo_automated := false, project_info := { key := none, loopRegion := none } }

/-- A project whose Tracks element has a single empty AudioTrack child. -/
def partitionRootOk : Elem :=
  .node "Ableton" [] [.node "Tracks" [] [.node "AudioTrack" [] []]]

/-- The model of the bare AudioTrack child of partitionRootOk. -/
def bareAudioTrack : Track :=
  { type := "Audio", name := "Untitled", color := "Default", devices := [],
    arrangement_clips := [], session_clips := [], mixer := none,
    routing := emptyRouting, state := emptyState }

/-- The project model parse_als produces for partitionRootOk. -/
def partitionProjOk : Project :=
  { creator := "Unknown", tempo := "120", time_sig := "4/4",
    tracks := { audio := [bareAudioTrack], midi := [], ret := [], grp := [] },
    locators := [], master := none, scenes := [],
    tempo_automated := false, project_info := { key := none, loopRegion := none } }

/-- A project with three scenes: a default named one, a custom named one
and one with an empty name. -/
def scenesRoot : Elem :=
  .node "Ableton" []
    [.node "Scenes" []
      [.node "Scene" [] [.node "Name" [("Value", "Scene 1")] []],
       .node "Scene" [] [.node "Name" [("Value", "Drop")] []],
       .node "Scene" [] [.node "Name" [("Value", "")] []]]]

-- Shared helper lemmas.

theorem mapMEx_ok_length {α β : Type} (f : α → Except String β) :
    ∀ {xs : List α} {ys : List β}, mapMEx f xs = Except.ok ys → ys.length = xs.length := by
  intro xs
  induction xs with
  | nil => intro ys h; simp [mapMEx] at h; simp [← h]
  | cons x xs ih =>
    intro ys h
    simp only [mapMEx] at h
    cases hf : f x with
    | error e => rw [hf] at h; simp [Bind.bind, Except.bind] at h
    | ok y =>
      rw [hf] at h
      cases hm : mapMEx f xs with
      | error e => rw [hm] at h; simp [Bind.bind, Except.bind] at h
      | ok zs =>
        rw [hm] at h
        simp only [Bind.bind, Except.bind, pure, Except.pure, Except.ok.injEq] at h
        rw [← h]
        simp [ih hm]

theorem enumFrom_filterMap_eq {α β : Type} (f : ℕ × α → Option β) :
    ∀ (l : List α) (k : ℕ),
      (List.enumFrom k l).filterMap f =
      (List.range l.length).filterMap
        (fun j =>
          match l.get? j with
          | some x => f (k + j, x)
          | none => none)
  | [], _ => by simp
  | x :: xs, k => by
    rw [List.enumFrom_cons, List.length_cons, List.range_succ_eq_map,
      List.filterMap_cons, List.filterMap_cons, List.filterMap_map,
      enumFrom_filterMap_eq f xs (k + 1)]
    have harg : (fun j =>
        match xs.get? j with
        | some y => f (k + 1 + j, y)
        | none => none) =
        ((fun j =>
          match (x :: xs).get? j with
          | some y => f (k + j, y)
          | none => none) ∘ Nat.succ) := by
      funext j
      simp only [Function.comp, List.get?_cons_succ]
      cases xs.get? j with
      | none => rfl
      | some y =>
        have : k + 1 + j = k + (j + 1) := by omega
        simp [this]
    rw [harg]
    simp

-- Claim theorems.

/-- Claim C1, amended: for inputs whose decompression (or read or UTF-8
decode) fails, parse_als returns the single error result carrying the
failure reason and format_output renders it as exactly the ERROR line,
with no summary; but for inputs that decompress to text that is not a
well-formed document, parse_als raises the uncaught ET.fromstring
exception instead of returning an error result. -/
theorem claim_C1_decode_error_amended :
    (∀ msg, parse_als (AlsInput.failDecomp msg) = Except.ok (ParseResult.error msg))
  ∧ (∀ msg, format_output (ParseResult.error msg) = "ERROR: " ++ msg)
  ∧ (∀ msg, parse_als (AlsInput.malformed msg) = Except.error msg) :=
  ⟨fun _ => rfl, fun _ => rfl, fun _ => rfl⟩

/-- Claim C1, counterexample: on a concrete byte sequence that decompresses
but is not well-formed, parse_als does not return an error result (or any
result): it raises, so format_output never renders an ERROR line for it. -/
theorem claim_C1_counterexample :
    parse_als (AlsInput.malformed "not well-formed (invalid token): line 1, column 0") =
      Except.error "not well-formed (invalid token): line 1, column 0"
  ∧ (parse_als (AlsInput.malformed "not well-formed (invalid token): line 1, column 0")).isOk
      = false :=
  ⟨rfl, rfl⟩

/-- Claim C2: evaluating the code at the failing input. An audio clip whose
WarpMode value is not numeric makes get_warp_info raise an uncaught
ValueError instead of substituting the documented default, the exception
propagates through parse_clip, and extraction of the whole file aborts
with it, contradicting the claimed field level recovery. -/
theorem claim_C2_warpmode_uncaught :
    get_warp_info warpClipBad = Except.error "invalid literal for int() with base 10: abc"
  ∧ parse_clip warpClipBad = Except.error "invalid literal for int() with base 10: abc"
  ∧ parse_als (AlsInput.wellFormed warpRootBad) =
      Except.error "invalid literal for int() with base 10: abc" :=
  ⟨rfl, rfl, rfl⟩

/-- Claim C6: warp reporting. A clip not marked warped reports nothing; a
warped clip with zero markers reports nothing; with one or two markers
only the mode name (no marker count); with three or more markers the
mode name plus the count; and an index absent from the warp mode table
yields the mode name Unknown. -/
theorem claim_C6_warp_reporting :
    (∀ clip : Elem, get_attr (some clip) [Seg.child "IsWarped"] "true" ≠ "true" →
      get_warp_info clip = Except.ok none)
  ∧ (∀ (clip : Elem) (m : ℤ),
      get_attr (some clip) [Seg.child "IsWarped"] "true" = "true" →
      pyInt (get_attr (some clip) [Seg.child "WarpMode"] "0") = some m →
        (warpMarkerCount clip = 0 → get_warp_info clip = Except.ok none)
      ∧ (0 < warpMarkerCount clip → warpMarkerCount clip ≤ 2 →
          get_warp_info clip =
            Except.ok (some { mode := (WARP_MODES.lookup m).getD "Unknown", markers := none }))
      ∧ (2 < warpMarkerCount clip →
          get_warp_info clip =
            Except.ok (some ⟨(WARP_MODES.lookup m).getD "Unknown", some (warpMarkerCount clip)⟩)))
  ∧ (∀ m : ℤ, WARP_MODES.lookup m = none → (WARP_MODES.lookup m).getD "Unknown" = "Unknown") := by
  refine ⟨?_, ?_, ?_⟩
  · intro clip h
    have hb : (get_attr (some clip) [Seg.child "IsWarped"] "true" == "true") = false :=
      beq_eq_false_iff_ne.mpr h
    unfold get_warp_info
    simp [hb]
  · intro clip m hw hm
    have hb : (get_attr (some clip) [Seg.child "IsWarped"] "true" == "true") = true :=
      beq_iff_eq.mpr hw
    refine ⟨?_, ?_, ?_⟩
    · intro h0
      have h1 : ¬ 2 < warpMarkerCount clip := by omega
      have h2 : ¬ 0 < warpMarkerCount clip := by omega
      simp [get_warp_info, hb, hm, h1, h2]
    · intro h0 h2
      have h1 : ¬ 2 < warpMarkerCount clip := by omega
      simp [get_warp_info, hb, hm, h1, h0]
    · intro h2
      simp [get_warp_info, hb, hm, h2]
  · intro m hm
    simp [hm]

/-- Claim C6, witness: a concrete warped clip in mode 4 with three markers
reports the mode name Complex together with the marker count 3. -/
theorem claim_C6_witness :
    get_attr (some warpClip3) [Seg.child "IsWarped"] "true" = "true"
  ∧ pyInt (get_attr (some warpClip3) [Seg.child "WarpMode"] "0") = some 4
  ∧ 2 < warpMarkerCount warpClip3
  ∧ get_warp_info warpClip3 = Except.ok (some { mode := "Complex", markers := some 3 }) :=
  ⟨rfl, rfl, by decide,
    (claim_C6_warp_reporting.2.1 warpClip3 4 rfl rfl).2.2 (by decide)⟩

/-- Claim C7: the session slot lines of every rendered track are a suffix
of that track render; when a track has more than three session clips they
consist of the header, exactly the first three clip lines and the
overflow line counting the remainder; and the model built by parse_track
always retains as many session clips as there are session clip elements
in the input (no truncation in the model). -/
theorem claim_C7_truncation :
    (∀ (i : ℕ) (t : Track),
      List.IsSuffix (sessionSlotLines t.session_clips) (renderTrackLines i t))
  ∧ (∀ sess : List Clip, 3 < sess.length →
      sessionSlotLines sess =
        ("      Session Slots (" ++ toString sess.length ++ "):") ::
        (sess.take 3).map (fun c => "        - " ++ format_clip c true) ++
        ["        ... and " ++ toString (sess.length - 3) ++ " more in slots"])
  ∧ (∀ (tr : Elem) (is_m : Bool),
      Except.map (fun t => t.session_clips.length) (parse_track tr is_m) =
      Except.map (fun _ => (sessionClipElems tr).length) (parse_track tr is_m)) := by
  refine ⟨?_, ?_, ?_⟩
  · intro i t
    unfold renderTrackLines
    exact List.IsSuffix.trans (List.suffix_append _ _) (List.suffix_cons _ _)
  · intro sess h
    have hne : sess.isEmpty = false := by
      cases sess with
      | nil => simp at h
      | cons a l => rfl
    unfold sessionSlotLines
    simp [hne, h]
  · intro tr is_m
    unfold parse_track
    cases h1 : mapMEx parse_clip (arrangementClipElems tr) with
    | error e => simp [h1, Bind.bind, Except.bind, Except.map]
    | ok arr =>
      cases h2 : mapMEx parse_session_clip (sessionClipElems tr) with
      | error e => simp [h1, h2, Bind.bind, Except.bind, Except.map]
      | ok sess =>
        simp [h1, h2, Bind.bind, Except.bind, Except.map, pure, Except.pure,
          mapMEx_ok_length _ h2]

/-- Claim C7, witness: with five session clips the renderer emits the
header, exactly three clip lines, and the line counting 2 more. -/
theorem claim_C7_witness :
    3 < (List.replicate 5 blankClip).length
  ∧ sessionSlotLines (List.replicate 5 blankClip) =
      ("      Session Slots (" ++ toString (List.replicate 5 blankClip).length ++ "):") ::
      ((List.replicate 5 blankClip).take 3).map (fun c => "        - " ++ format_clip c true) ++
      ["        ... and " ++ toString ((List.replicate 5 blankClip).length - 3) ++ " more in slots"] :=
  ⟨by decide, claim_C7_truncation.2.1 (List.replicate 5 blankClip) (by decide)⟩

theorem buildTracks_lengths (gm : List (String × String)) :
    ∀ (cs : List Elem) (tls : TrackLists), buildTracks gm cs = Except.ok tls →
      tls.audio.length = (cs.filter (fun t => t.tag == "AudioTrack")).length
    ∧ tls.midi.length = (cs.filter (fun t => t.tag == "MidiTrack")).length
    ∧ tls.ret.length = (cs.filter (fun t => t.tag == "ReturnTrack")).length
    ∧ tls.grp.length = (cs.filter (fun t => t.tag == "GroupTrack")).length := by
  intro cs
  induction cs with
  | nil =>
    intro tls h
    simp [buildTracks] at h
    simp [← h, emptyTrackLists]
  | cons t rest ih =>
    intro tls h
    simp only [buildTracks] at h
    cases hp : parse_track t false with
    | error e => rw [hp] at h; simp [Bind.bind, Except.bind] at h
    | ok info0 =>
      rw [hp] at h
      cases hb : buildTracks gm rest with
      | error e => rw [hb] at h; simp [Bind.bind, Except.bind] at h
      | ok tl =>
        rw [hb] at h
        simp only [Bind.bind, Except.bind, pure, Except.pure, Except.ok.injEq] at h
        obtain ⟨ha, hm, hr, hg⟩ := ih tl hb
        subst h
        by_cases h1 : t.tag = "AudioTrack"
        · simp [List.filter_cons, h1, ha, hm, hr, hg]
        · by_cases h2 : t.tag = "MidiTrack"
          · simp [List.filter_cons, h1, h2, ha, hm, hr, hg]
          · by_cases h3 : t.tag = "ReturnTrack"
            · simp [List.filter_cons, h1, h2, h3, ha, hm, hr, hg]
            · by_cases h4 : t.tag = "GroupTrack"
              · simp [List.filter_cons, h1, h2, h3, h4, ha, hm, hr, hg]
              · simp [List.filter_cons, beq_eq_false_iff_ne.mpr h1, beq_eq_false_iff_ne.mpr h2,
                  beq_eq_false_iff_ne.mpr h3, beq_eq_false_iff_ne.mpr h4, ha, hm, hr, hg]

theorem kindTag_counts (cs : List Elem) :
    (cs.filter (fun t => t.tag == "AudioTrack")).length +
    (cs.filter (fun t => t.tag == "MidiTrack")).length +
    (cs.filter (fun t => t.tag == "ReturnTrack")).length +
    (cs.filter (fun t => t.tag == "GroupTrack")).length
    = (cs.filter (fun t => isKindTag t.tag)).length := by
  induction cs with
  | nil => rfl
  | cons t rest ih =>
    by_cases h1 : t.tag = "AudioTrack"
    · have e1 : (t.tag == "AudioTrack") = true := beq_iff_eq.mpr h1
      have e2 : (t.tag == "MidiTrack") = false := by rw [h1]; decide
      have e3 : (t.tag == "ReturnTrack") = false := by rw [h1]; decide
      have e4 : (t.tag == "GroupTrack") = false := by rw [h1]; decide
      have hk : isKindTag t.tag = true := by simp [isKindTag, e1]
      simp [List.filter_cons, e1, e2, e3, e4, hk]
      omega
    · by_cases h2 : t.tag = "MidiTrack"
      · have e1 : (t.tag == "AudioTrack") = false := beq_eq_false_iff_ne.mpr h1
        have e2 : (t.tag == "MidiTrack") = true := beq_iff_eq.mpr h2
        have e3 : (t.tag == "ReturnTrack") = false := by rw [h2]; decide
        have e4 : (t.tag == "GroupTrack") = false := by rw [h2]; decide
        have hk : isKindTag t.tag = true := by simp [isKindTag, e2]
        simp [List.filter_cons, e1, e2, e3, e4, hk]
        omega
      · by_cases h3 : t.tag = "ReturnTrack"
        · have e1 : (t.tag == "AudioTrack") = false := beq_eq_false_iff_ne.mpr h1
          have e2 : (t.tag == "MidiTrack") = false := beq_eq_false_iff_ne.mpr h2
          have e3 : (t.tag == "ReturnTrack") = true := beq_iff_eq.mpr h3
          have e4 : (t.tag == "GroupTrack") = false := by rw [h3]; decide
          have hk : isKindTag t.tag = true := by simp [isKindTag, e3]
          simp [List.filter_cons, e1, e2, e3, e4, hk]
          omega
        · by_cases h4 : t.tag = "GroupTrack"
          · have e1 : (t.tag == "AudioTrack") = false := beq_eq_false_iff_ne.mpr h1
            have e2 : (t.tag == "MidiTrack") = false := beq_eq_false_iff_ne.mpr h2
            have e3 : (t.tag == "ReturnTrack") = false := beq_eq_false_iff_ne.mpr h3
            have e4 : (t.tag == "GroupTrack") = true := beq_iff_eq.mpr h4
            have hk : isKindTag t.tag = true := by simp [isKindTag, e4]
            simp [List.filter_cons, e1, e2, e3, e4, hk]
            omega
          · have e1 : (t.tag == "AudioTrack") = false := beq_eq_false_iff_ne.mpr h1
            have e2 : (t.tag == "MidiTrack") = false := beq_eq_false_iff_ne.mpr h2
            have e3 : (t.tag == "ReturnTrack") = false := beq_eq_false_iff_ne.mpr h3
            have e4 : (t.tag == "GroupTrack") = false := beq_eq_false_iff_ne.mpr h4
            have hk : isKindTag t.tag = false := by simp [isKindTag, e1, e2, e3, e4]
            simp [List.filter_cons, e1, e2, e3, e4, hk]
            omega

/-- Claim C9, amended: whenever parse_als succeeds on a document, each of
the four track kind lists holds exactly the children of the Tracks
element bearing the matching tag (so the partition is mutually exclusive
and exhaustive over children with one of the four recognized tags);
children with any other tag are dropped. -/
theorem claim_C9_partition_amended :
    ∀ (root : Elem) (p : Project),
      parse_als (AlsInput.wellFormed root) = Except.ok (ParseResult.project p) →
      p.tracks.audio.length = ((tracksChildren root).filter (fun t => t.tag == "AudioTrack")).length
    ∧ p.tracks.midi.length = ((tracksChildren root).filter (fun t => t.tag == "MidiTrack")).length
    ∧ p.tracks.ret.length = ((tracksChildren root).filter (fun t => t.tag == "ReturnTrack")).length
    ∧ p.tracks.grp.length = ((tracksChildren root).filter (fun t => t.tag == "GroupTrack")).length
    ∧ p.tracks.audio.length + p.tracks.midi.length + p.tracks.ret.length + p.tracks.grp.length
        = ((tracksChildren root).filter (fun t => isKindTag t.tag)).length := by
  intro root p h
  simp only [parse_als, Bind.bind, Except.bind, pure, Except.pure] at h
  have main : ∀ tls : TrackLists, p.tracks = tls →
      buildTracks (build_group_map root) (tracksChildren root) = Except.ok tls →
      p.tracks.audio.length = ((tracksChildren root).filter (fun t => t.tag == "AudioTrack")).length
    ∧ p.tracks.midi.length = ((tracksChildren root).filter (fun t => t.tag == "MidiTrack")).length
    ∧ p.tracks.ret.length = ((tracksChildren root).filter (fun t => t.tag == "ReturnTrack")).length
    ∧ p.tracks.grp.length = ((tracksChildren root).filter (fun t => t.tag == "GroupTrack")).length
    ∧ p.tracks.audio.length + p.tracks.midi.length + p.tracks.ret.length + p.tracks.grp.length
        = ((tracksChildren root).filter (fun t => isKindTag t.tag)).length := by
    intro tls hp hb
    obtain ⟨ha, hm, hr, hg⟩ := buildTracks_lengths (build_group_map root) (tracksChildren root) tls hb
    rw [hp, ha, hm, hr, hg]
    exact ⟨rfl, rfl, rfl, rfl, kindTag_counts _⟩
  split at h
  · rename_i hte
    split at h
    · simp at h
    · rename_i master hmt
      rw [Except.ok.injEq] at h
      injection h with h1
      refine main emptyTrackLists ?_ ?_
      · rw [← h1]
      · unfold tracksChildren
        rw [hte]
        rfl
  · rename_i te hte
    split at h
    · simp at h
    · rename_i tls hb
      split at h
      · simp at h
      · rename_i master hmt
        rw [Except.ok.injEq] at h
        injection h with h1
        refine main tls ?_ ?_
        · rw [← h1]
        · unfold tracksChildren
          rw [hte]
          exact hb

/-- Claim C9, witness: on a concrete project with a single AudioTrack the
audio list holds exactly that track and the partition totals match. -/
theorem claim_C9_witness :
    parse_als (AlsInput.wellFormed partitionRootOk) = Except.ok (ParseResult.project partitionProjOk)
  ∧ partitionProjOk.tracks.audio.length =
      ((tracksChildren partitionRootOk).filter (fun t => t.tag == "AudioTrack")).length
  ∧ partitionProjOk.tracks.audio.length + partitionProjOk.tracks.midi.length +
      partitionProjOk.tracks.ret.length + partitionProjOk.tracks.grp.length
      = ((tracksChildren partitionRootOk).filter (fun t => isKindTag t.tag)).length :=
  ⟨rfl, (claim_C9_partition_amended partitionRootOk partitionProjOk rfl).1,
    (claim_C9_partition_amended partitionRootOk partitionProjOk rfl).2.2.2.2⟩

/-- Claim C9, counterexample: a Tracks element whose single child has an
unrecognized tag is parsed but assigned to none of the four track kind
lists, so the partition is not exhaustive over all children. -/
theorem claim_C9_counterexample :
    parse_als (AlsInput.wellFormed partitionRootOdd) =
      Except.ok (ParseResult.project partitionProjOdd)
  ∧ (tracksChildren partitionRootOdd).length = 1
  ∧ partitionProjOdd.tracks.audio.length + partitionProjOdd.tracks.midi.length +
      partitionProjOdd.tracks.ret.length + partitionProjOdd.tracks.grp.length = 0 :=
  ⟨rfl, rfl, rfl⟩

theorem pyTrunc_intCast {α : Type} [LinearOrderedField α] [FloorRing α] (k : ℤ) :
    pyTrunc ((k : α)) = k := by
  unfold pyTrunc
  by_cases h : (k : α) < 0
  · rw [if_pos h, ← Int.cast_neg, Int.floor_intCast]
    ring
  · rw [if_neg h, Int.floor_intCast]

theorem rndHE_intCast {α : Type} [LinearOrderedField α] [FloorRing α] (k : ℤ) :
    rndHE ((k : α)) = k := by
  simp only [rndHE, Int.floor_intCast, sub_self]
  norm_num

theorem fmtFixed_ofInt {α : Type} [LinearOrderedField α] [FloorRing α] (x : α) (prec : ℕ)
    (k : ℤ) (h : x * 10 ^ prec = (k : α)) :
    fmtFixed x prec =
      (if prec = 0 then (if k < 0 then "-" else "") ++ toString k.natAbs
       else (if k < 0 then "-" else "") ++ toString (k.natAbs / 10 ^ prec) ++ "." ++
         natPad (k.natAbs % 10 ^ prec) prec) := by
  simp only [fmtFixed, h, rndHE_intCast]

/-- Claim C4, counterexample: at pan value 3/100 the code renders R1
(truncating 1.5 to 1), while the claimed formula pct = round(|v| * 50)
gives 2 and hence R2. -/
theorem claim_C4_counterexample :
    format_pan (3/100) = "R1"
  ∧ "R" ++ toString (round ((|(3 : ℚ)/100|) * 50)) = "R2" := by
  have habs : |(3:ℚ)/100| = 3/100 := abs_of_nonneg (by norm_num)
  constructor
  · unfold format_pan pyTrunc
    have h0 : ¬ |(3:ℚ)/100| < 1/100 := by rw [habs]; norm_num
    have h1 : ¬ ((3:ℚ)/100 < 0) := by norm_num
    have h2 : ¬ (|(3:ℚ)/100| * 50 < 0) := by rw [habs]; norm_num
    have h3 : ⌊|(3:ℚ)/100| * 50⌋ = 1 := by
      rw [habs, show (3:ℚ)/100 * 50 = 3/2 by norm_num]
      norm_num
    rw [if_neg h0, if_neg h1, if_neg h2, h3]
    rfl
  · have h : round ((|(3 : ℚ)/100|) * 50) = 2 := by
      rw [habs, round_eq, show (3:ℚ)/100 * 50 + 1/2 = 2 by norm_num]
      norm_num
    rw [h]
    rfl

/-- Claim C4, amended: format_pan returns C exactly when |v| < 0.01 and
otherwise L or R followed by floor(|v| * 50) (int() truncation, not
rounding); 0.0 renders as C and 0.02 renders as R1. -/
theorem claim_C4_pan_amended :
    (∀ v : ℚ, format_pan v =
      if |v| < 1/100 then "C"
      else (if v < 0 then "L" else "R") ++ toString ⌊|v| * 50⌋)
  ∧ format_pan 0 = "C"
  ∧ format_pan (2/100) = "R1" := by
  refine ⟨?_, ?_, ?_⟩
  · intro v
    by_cases h : |v| < 1/100
    · rw [if_pos h]
      unfold format_pan
      rw [if_pos h]
    · rw [if_neg h]
      unfold format_pan pyTrunc
      rw [if_neg h]
      have h0 : (0:ℚ) ≤ |v| * 50 := by positivity
      rw [if_neg (not_lt.mpr h0)]
  · unfold format_pan
    rw [if_pos (by norm_num : |(0:ℚ)| < 1/100)]
  · unfold format_pan pyTrunc
    have habs : |(2:ℚ)/100| = 2/100 := abs_of_nonneg (by norm_num)
    have h0 : ¬ |(2:ℚ)/100| < 1/100 := by rw [habs]; norm_num
    have h1 : ¬ ((2:ℚ)/100 < 0) := by norm_num
    have h2 : ¬ (|(2:ℚ)/100| * 50 < 0) := by rw [habs]; norm_num
    have h3 : ⌊|(2:ℚ)/100| * 50⌋ = 1 := by
      rw [habs, show (2:ℚ)/100 * 50 = 1 by norm_num]
      norm_num
    rw [if_neg h0, if_neg h1, if_neg h2, h3]
    rfl

/-- Claim C8: format_beats renders bar.beat with bar = floor(offset/4)+1
and beat = (offset mod 4)+1 to one decimal; raw beat 0 renders as 1.1.0
and raw beat 4 renders as 2.1.0. -/
theorem claim_C8_beats :
    (∀ b : ℚ, format_beats_core b =
      toString (⌊b / 4⌋ + 1) ++ "." ++ fmtFixed (b - 4 * ⌊b / 4⌋ + 1) 1)
  ∧ format_beats "0" = "1.1.0"
  ∧ format_beats "4" = "2.1.0" := by
  have core : ∀ b : ℚ, format_beats_core b =
      toString (⌊b / 4⌋ + 1) ++ "." ++ fmtFixed (b - 4 * ⌊b / 4⌋ + 1) 1 := by
    intro b
    unfold format_beats_core pyFMod
    rw [pyTrunc_intCast]
  refine ⟨core, ?_, ?_⟩
  · have e : format_beats "0" = format_beats_core 0 := rfl
    rw [e, core 0]
    have h4 : ⌊(0:ℚ) / 4⌋ = 0 := by norm_num
    rw [h4]
    have hf : fmtFixed ((0:ℚ) - 4 * ((0:ℤ):ℚ) + 1) 1 = "1.0" := by
      rw [fmtFixed_ofInt ((0:ℚ) - 4 * ((0:ℤ):ℚ) + 1) 1 10 (by push_cast; norm_num)]
      rfl
    rw [hf]
    rfl
  · have e : format_beats "4" = format_beats_core 4 := rfl
    rw [e, core 4]
    have h4 : ⌊(4:ℚ) / 4⌋ = 1 := by
      rw [show (4:ℚ)/4 = 1 by norm_num]
      norm_num
    rw [h4]
    have hf : fmtFixed ((4:ℚ) - 4 * ((1:ℤ):ℚ) + 1) 1 = "1.0" := by
      rw [fmtFixed_ofInt ((4:ℚ) - 4 * ((1:ℤ):ℚ) + 1) 1 10 (by push_cast; norm_num)]
      rfl
    rw [hf]
    rfl

/-- Claim C3: the generic parameter classifier equals the spec side
ordered rule table evaluated top to bottom with the earlier rule
winning; in particular a name containing both gain and freq with value
in [0,1] renders as a percentage (rule 2 beats rule 3). -/
theorem claim_C3_param_rules :
    (∀ (v : ℚ) (name : String), format_param v name = format_param_spec v name)
  ∧ format_param (1/2) "GainFreq" = "50%" := by
  constructor
  · intro v name
    simp only [format_param, format_param_spec, evalParamRules, paramRules, paramFallback]
    by_cases h0 : v = 0 ∨ v = 1
    · by_cases hI : ((!containsStr (strToLower name) "time" && !containsStr (strToLower name) "rate") &&
          (containsStr (strToLower name) "on" || containsStr (strToLower name) "sync" ||
           containsStr (strToLower name) "link" || containsStr (strToLower name) "freeze")) = true
      · have hc : (v == 0 || v == 1) = true := by
          rcases h0 with h | h <;> simp [h]
        simp [h0, hI, hc]
      · have hI2 : ((!containsStr (strToLower name) "time" && !containsStr (strToLower name) "rate") &&
            (containsStr (strToLower name) "on" || containsStr (strToLower name) "sync" ||
             containsStr (strToLower name) "link" || containsStr (strToLower name) "freeze")) = false := by
          revert hI
          cases ((!containsStr (strToLower name) "time" && !containsStr (strToLower name) "rate") &&
            (containsStr (strToLower name) "on" || containsStr (strToLower name) "sync" ||
             containsStr (strToLower name) "link" || containsStr (strToLower name) "freeze")) <;> simp
        simp [h0, hI2]
    · have hc : (v == 0 || v == 1) = false := by
        rcases not_or.mp h0 with ⟨h1, h2⟩
        simp [h1, h2]
      simp [h0, hc]
  · have h0 : ¬ ((1:ℚ)/2 = 0 ∨ (1:ℚ)/2 = 1) := by
      push_neg
      constructor <;> norm_num
    simp only [format_param]
    rw [if_neg h0]
    have hB : ((decide ((0:ℚ) ≤ 1/2) && decide ((1:ℚ)/2 ≤ 1)) &&
        (containsStr (strToLower "GainFreq") "wet" || containsStr (strToLower "GainFreq") "mix" ||
         containsStr (strToLower "GainFreq") "amount" || containsStr (strToLower "GainFreq") "feedback" ||
         containsStr (strToLower "GainFreq") "depth" || containsStr (strToLower "GainFreq") "gain" ||
         containsStr (strToLower "GainFreq") "drive" || containsStr (strToLower "GainFreq") "resonance")) = true := by
      rw [Bool.and_eq_true, Bool.and_eq_true, decide_eq_true_eq, decide_eq_true_eq]
      refine ⟨⟨by norm_num, by norm_num⟩, by decide⟩
    rw [if_pos hB]
    rw [fmtFixed_ofInt ((1:ℚ)/2 * 100) 0 50 (by push_cast; norm_num)]
    rfl

/-- Claim C10: scene extraction equals the spec side description (keep a
scene exactly when its name is nonempty and not default, carrying its
1-based position among all Scene elements), and on a concrete project a
skipped default first scene does not renumber the named second scene. -/
theorem claim_C10_scene_filter :
    (∀ root : Elem, parse_scenes root = parse_scenes_spec root)
  ∧ parse_scenes scenesRoot = [(2, "Drop")] := by
  constructor
  · intro root
    unfold parse_scenes parse_scenes_spec
    have h := enumFrom_filterMap_eq
      (f := fun p : ℕ × Elem =>
        let nm := get_attr (some p.2) [Seg.child "Name"] ""
        if nm ≠ "" ∧ ¬ strStartsWith nm "Scene " then some (p.1 + 1, nm) else none)
      (sceneElems root) 0
    simp only [List.enum] at h ⊢
    rw [h]
    congr 1
    funext j
    cases (sceneElems root).get? j with
    | none => rfl
    | some sc => simp
  · decide

theorem log54_bounds : (681/3072 : ℝ) ≤ Real.log (5/4) ∧ Real.log (5/4) ≤ 689/3072 := by
  have h := Real.abs_log_sub_add_sum_range_le (x := -(1/4 : ℝ)) (by rw [abs_neg]; norm_num [abs_of_nonneg]) 4
  have hs : (∑ i ∈ Finset.range 4, (-(1/4:ℝ)) ^ (i + 1) / (i + 1)) = -685/3072 := by
    norm_num [Finset.sum_range_succ]
  have hx : (1:ℝ) - -(1/4) = 5/4 := by norm_num
  have ha : |(-(1/4:ℝ))| = 1/4 := by rw [abs_neg]; norm_num [abs_of_nonneg]
  rw [hs, hx, ha] at h
  have h2 : |(-685/3072 : ℝ) + Real.log (5/4)| ≤ 1/768 := by
    calc |(-685/3072 : ℝ) + Real.log (5/4)| ≤ (1/4:ℝ)^(4+1)/(1 - 1/4) := h
    _ = 1/768 := by norm_num
  rw [abs_le] at h2
  constructor <;> linarith [h2.1, h2.2]

theorem log_ten_bounds : (2.3011 : ℝ) < Real.log 10 ∧ Real.log 10 < 2.3038 := by
  have he : Real.log 10 = 3 * Real.log 2 + Real.log (5/4) := by
    have h10 : (10:ℝ) = 2^3 * (5/4) := by norm_num
    rw [h10, Real.log_mul (by norm_num) (by norm_num), Real.log_pow]
    push_cast
    ring
  have hb := log54_bounds
  have h1 := Real.log_two_gt_d9
  have h2 := Real.log_two_lt_d9
  constructor <;> rw [he] <;> nlinarith [hb.1, hb.2]

theorem logb_ten_two_bounds : (0.3008 : ℝ) < Real.logb 10 2 ∧ Real.logb 10 2 < 0.30125 := by
  have hT := log_ten_bounds
  have hT0 : (0:ℝ) < Real.log 10 := by linarith [hT.1]
  have h1 := Real.log_two_gt_d9
  have h2 := Real.log_two_lt_d9
  constructor
  · rw [Real.logb, lt_div_iff₀ hT0]
    nlinarith [hT.2]
  · rw [Real.logb, div_lt_iff₀ hT0]
    nlinarith [hT.1]

theorem logb_half : Real.logb 10 ((1:ℝ)/2) = -Real.logb 10 2 := by
  rw [show ((1:ℝ)/2) = 2⁻¹ by norm_num, Real.logb, Real.logb, Real.log_inv]
  ring

theorem format_db_half : format_db (1/2) = "-6.0dB" := by
  have hb := logb_ten_two_bounds
  set L := Real.logb 10 2 with hLdef
  have hdb : 20 * Real.logb 10 ((1:ℝ)/2) = -(20 * L) := by
    rw [logb_half]
    ring
  simp only [format_db]
  rw [if_neg (by norm_num : ¬ ((1:ℝ)/2 ≤ 0))]
  rw [hdb]
  have hL1 : (0.3008 : ℝ) < L := hb.1
  have hL2 : L < 0.30125 := hb.2
  have h1 : ¬ |-(20 * L)| < 1/10 := by
    rw [abs_neg, abs_of_nonneg (by linarith)]
    push_neg
    linarith
  rw [if_neg h1]
  have hfl : ⌊(20:ℝ) * L⌋ = 6 := by
    rw [Int.floor_eq_iff]
    constructor
    · push_cast
      linarith
    · push_cast
      linarith
  have hpt : pyTrunc (-(20 * L)) = -6 := by
    unfold pyTrunc
    rw [if_pos (by linarith : -(20 * L) < 0), neg_neg, hfl]
  have h2 : ¬ (-(20 * L) = ((pyTrunc (-(20 * L)) : ℤ) : ℝ)) := by
    rw [hpt]
    push_cast
    intro heq
    linarith
  rw [if_neg h2]
  have hfl2 : ⌊-(20 * L) * 10 ^ 1⌋ = -61 := by
    rw [Int.floor_eq_iff]
    constructor
    · push_cast
      nlinarith
    · push_cast
      nlinarith
  have hn : rndHE (-(20 * L) * 10 ^ 1) = -60 := by
    unfold rndHE
    rw [hfl2]
    rw [if_neg (by push_cast; nlinarith), if_pos (by push_cast; nlinarith)]
    norm_num
  unfold fmtPlusFixed
  rw [hn, if_pos (by norm_num : (-60:ℤ) < 0)]
  unfold fmtFixed
  rw [hn]
  rfl

/-- Claim C5: format_db returns -inf for zero or negative linear gain,
0dB when the decibel value is within 0.1 dB of 0, the signed integer
form when the decibel value is an exact integer, and otherwise the
signed one-decimal form; linear 1.0 renders as 0dB, linear 0.5 renders
as -6.0dB and linear 0 renders as -inf. -/
theorem claim_C5_format_db :
    (∀ v : ℝ, v ≤ 0 → format_db v = "-inf")
  ∧ (∀ v : ℝ, 0 < v → |20 * Real.logb 10 v| < 1/10 → format_db v = "0dB")
  ∧ (∀ (v : ℝ) (k : ℤ), 0 < v → ¬ |20 * Real.logb 10 v| < 1/10 →
      20 * Real.logb 10 v = (k : ℝ) → format_db v = fmtPlusInt k ++ "dB")
  ∧ (∀ v : ℝ, 0 < v → ¬ |20 * Real.logb 10 v| < 1/10 →
      (∀ k : ℤ, 20 * Real.logb 10 v ≠ (k : ℝ)) →
      format_db v = fmtPlusFixed (20 * Real.logb 10 v) 1 ++ "dB")
  ∧ format_db 1 = "0dB"
  ∧ format_db (1/2) = "-6.0dB"
  ∧ format_db 0 = "-inf" := by
  refine ⟨?_, ?_, ?_, ?_, ?_, format_db_half, ?_⟩
  · intro v h
    simp only [format_db]
    rw [if_pos h]
  · intro v h0 h
    simp only [format_db]
    rw [if_neg (not_le.mpr h0), if_pos h]
  · intro v k h0 h1 hk
    simp only [format_db]
    rw [if_neg (not_le.mpr h0), if_neg h1]
    rw [if_pos (by rw [hk, pyTrunc_intCast]), hk, pyTrunc_intCast]
  · intro v h0 h1 hk
    simp only [format_db]
    rw [if_neg (not_le.mpr h0), if_neg h1]
    rw [if_neg (fun heq => hk _ heq)]
  · simp only [format_db]
    rw [if_neg (by norm_num : ¬ ((1:ℝ) ≤ 0)), Real.logb_one]
    norm_num
  · simp only [format_db]
    rw [if_pos (le_refl (0:ℝ))]

/-- Claim C5, witness: the branch conditions discharged at the concrete
inputs -1 and 1. -/
theorem claim_C5_witness :
    ((-1 : ℝ) ≤ 0 ∧ format_db (-1) = "-inf") ∧ (0:ℝ) < 1 ∧ format_db 1 = "0dB" :=
  ⟨⟨by norm_num, claim_C5_format_db.1 (-1) (by norm_num)⟩,
   by norm_num, claim_C5_format_db.2.2.2.2.1⟩

end Als
